import Mathlib

/-!
Shallow embedding of the Modia validation engine (JavaScript) and proofs about
its specified behaviour.

The embedding follows the source files of the repository:

* `modia/configurations/validation-rules.js` — `isEmpty`, the `required` rule;
* `modia/services/field-validator.js` (and its later revision shipped in the
  repository, called the "R9 revision" below) — `getFieldValue`,
  `isVisibleForValidation`, `loadRules`, `validate`, the five-level message
  resolution (`_getErrorMessageWithLevel` and its helpers), `_formatMessage`;
* `modia/services/field-error-renderer.js` (legacy sibling-based revision) and
  its marker-based revision — `hasError`, `renderError`, `clearError`;
* `modia/core.js` — the two revisions of `ComponentScanner.scan`.

JavaScript values that matter to the claims are modelled explicitly:
`null`/`undefined` and string/array values are constructors of `JSValue`,
string falsiness is the empty-string test, attribute maps are association
lists looked up in insertion order, and a thrown `TypeError` is the `error`
case of `Except JsErr`.
-/

namespace Modia

/-- A JavaScript error that can be thrown by the embedded code.  The only
throw site relevant to the claims is reading a property of `undefined`. -/
inductive JsErr
  | typeError
deriving DecidableEq, Repr

/-- Association-list lookup, first match wins — the model of reading a key
from a JavaScript object whose entries are in insertion order. -/
def jsLookup (m : List (String × String)) (k : String) : Option String :=
  (m.find? (fun p => p.1 == k)).map (fun p => p.2)

/-- Truthiness of a JavaScript string-or-null value: `null`, `undefined` and
the empty string are falsy. -/
def jsTruthyOptStr : Option String → Bool
  | none => false
  | some s => s != ""

/-- A JavaScript value as produced by the value resolver: `null`/`undefined`,
a string, or an array of further values. -/
inductive JSValue
  | vnull
  | vstr (s : String)
  | varr (vs : List JSValue)

mutual

/-- Embeds `isEmpty` of `modia/configurations/validation-rules.js`: null or
undefined, a string that trims to nothing, an array of length zero, or an
array all of whose elements are empty. -/
def isEmpty : JSValue → Bool
  | JSValue.vnull => true
  | JSValue.vstr s => s.trim == ""
  | JSValue.varr vs => vs.length == 0 || allEmpty vs

/-- Embeds the `value.every(v => isEmpty(v))` call inside `isEmpty`. -/
def allEmpty : List JSValue → Bool
  | [] => true
  | v :: tl => isEmpty v && allEmpty tl

end

/-- The outcome of a rule's `validate` function: a boolean, or an object
whose `valid` and `params` properties may each be absent. -/
inductive RuleResult
  | rbool (b : Bool)
  | robj (valid : Option Bool) (params : Option (List (String × String)))
deriving DecidableEq, Repr

/-- Embeds the wrapping step of `required.validate`: a non-array value is
wrapped into a one-element array before the emptiness scan. -/
def normalizeToArray : JSValue → List JSValue
  | JSValue.varr vs => vs
  | v => [v]

/-- Embeds `required.validate` of `validation-rules.js`: the unit passes iff
some member of the (normalised) value array is non-empty, otherwise the rule
reports an object with `valid: false` and empty params. -/
def requiredValidate (value : JSValue) : RuleResult :=
  if (normalizeToArray value).any (fun v => !isEmpty v) then
    RuleResult.rbool true
  else
    RuleResult.robj (some false) (some [])

mutual

/-- Blankness as worded by the specification: null/undefined, a
whitespace-only string, or — for a nested array — every element blank.
This definition follows the specification text and is compared against the
source's `isEmpty`. -/
def specBlank : JSValue → Bool
  | JSValue.vnull => true
  | JSValue.vstr s => s.trim == ""
  | JSValue.varr vs => specAllBlank vs

/-- Every element of the list is blank in the sense of the specification. -/
def specAllBlank : List JSValue → Bool
  | [] => true
  | v :: tl => specBlank v && specAllBlank tl

end

/-- A JavaScript word character, as matched by `\w` without the Unicode
flag: ASCII letters, digits and the underscore. -/
def wordChar (c : Char) : Bool :=
  c.isAlphanum || c == '_'

/-- Backtracking search of the greedy `\w+` group of the pattern
`__\w+__` applied after the two leading underscores: the regex engine first
consumes the longest word-character run and then gives characters back until
the closing `__` can match.  Returns the number of characters the group
finally consumes. -/
def greedyK (rest : List Char) : Option Nat :=
  let maxK := (rest.takeWhile wordChar).length
  (List.range maxK).reverse.findSome? (fun i =>
    match rest.drop (i + 1) with
    | c1 :: c2 :: _ => if c1 == '_' && c2 == '_' then some (i + 1) else none
    | _ => none)

/-- Length of the match of `__\w+__` at the head of the character list, if
the pattern matches there. -/
def tokenLen : List Char → Option Nat
  | '_' :: '_' :: rest => (greedyK rest).map (fun k => k + 4)
  | _ => none

/-- Embeds `match.replace(/__/g, '')`: removes every non-overlapping
occurrence of two consecutive underscores, scanning left to right. -/
def removeDunders : List Char → List Char
  | '_' :: '_' :: rest => removeDunders rest
  | c :: rest => c :: removeDunders rest
  | [] => []

/-- Exact-key parameter lookup, the model of `params[key]` in the current
`field-validator.js`. -/
def paramLookup (params : List (String × String)) (key : String) : Option String :=
  (params.find? (fun p => p.1 == key)).map (fun p => p.2)

/-- ASCII lowering of one character, the model of `toLowerCase()` on the
ASCII keys the code handles. -/
def jsCharLower (c : Char) : Char :=
  if 65 ≤ c.toNat && c.toNat ≤ 90 then Char.ofNat (c.toNat + 32) else c

/-- Lowering of a whole string, character by character. -/
def jsToLower (s : String) : String :=
  String.mk (s.toList.map jsCharLower)

/-- Case-insensitive parameter lookup, the model of
`Object.keys(params).find(k => k.toLowerCase() === key)` in the R9 revision:
the first key (in insertion order) that matches after lowercasing wins. -/
def paramLookupCI (params : List (String × String)) (keyLower : String) : Option String :=
  (params.find? (fun p => jsToLower p.1 == keyLower)).map (fun p => p.2)

/-- One pass of the global replacement of `/__\w+__/`: at each position,
either a match is consumed and replaced (scanning resumes after it, as the
`g` flag does) or one character is kept.  The fuel argument starts at the
list length and dominates it throughout, so the `0` case is never reached
with a nonempty list; it exists only to make the recursion structural. -/
def replaceTokensAux (ci : Bool) (params : List (String × String)) :
    Nat → List Char → List Char
  | 0, l => l
  | _ + 1, [] => []
  | fuel + 1, c :: cs =>
    match tokenLen (c :: cs) with
    | some n =>
      let tok := (c :: cs).take n
      let key0 := String.mk (removeDunders tok)
      let rep :=
        if ci then
          match paramLookupCI params (jsToLower key0) with
          | some v => v.toList
          | none => tok
        else
          match paramLookup params key0 with
          | some v => v.toList
          | none => tok
      rep ++ replaceTokensAux ci params fuel ((c :: cs).drop n)
    | none => c :: replaceTokensAux ci params fuel cs

/-- Global replacement of `__NAME__` tokens over a whole string. -/
def replaceTokens (ci : Bool) (params : List (String × String)) (s : String) : String :=
  String.mk (replaceTokensAux ci params s.toList.length s.toList)

/-- Embeds `_formatMessage` of the current `field-validator.js`: tokens
`__NAME__` are replaced by `params[key]` where `key` is the token with all
double underscores removed — an exact, case-sensitive property read — and
tokens with no matching key stay verbatim. -/
def formatMessageC (message : String) (params : List (String × String)) : String :=
  if message == "" then message else replaceTokens false params message

/-- Embeds `_formatMessage` of the R9 revision: the stripped key is
lowercased and compared case-insensitively against the parameter keys;
unmatched tokens stay verbatim. -/
def formatMessageCI (message : String) (params : List (String × String)) : String :=
  if message == "" then message else replaceTokens true params message

/-- Embeds the literal-pattern global replace used by the tier-4 branch of
the current `field-validator.js` (`new RegExp` built from an uppercased key,
whose characters carry no regex metacharacters).  Fuel starts at the list
length and dominates it, so the `0` case is unreachable. -/
def replaceAllLitAux (pat rep : List Char) : Nat → List Char → List Char
  | 0, l => l
  | _ + 1, [] => []
  | fuel + 1, c :: cs =>
    if pat ≠ [] ∧ pat.isPrefixOf (c :: cs) then
      rep ++ replaceAllLitAux pat rep fuel ((c :: cs).drop pat.length)
    else
      c :: replaceAllLitAux pat rep fuel cs

/-- Global replacement of a literal pattern in a string. -/
def replaceAllLit (s pat rep : String) : String :=
  String.mk (replaceAllLitAux pat.toList rep.toList s.toList.length s.toList)

/-- ASCII upping of one character, the model of `toUpperCase()`. -/
def jsCharUpper (c : Char) : Char :=
  if 97 ≤ c.toNat && c.toNat ≤ 122 then Char.ofNat (c.toNat - 32) else c

/-- Upping of a whole string, character by character. -/
def jsToUpper (s : String) : String :=
  String.mk (s.toList.map jsCharUpper)

/-- Embeds `_formatErrorMessage` with its default arguments: wraps the text
in a `span` carrying the `text-danger` class. -/
def formatErrorMessage (text : String) : String :=
  "<span class=\"text-danger\">" ++ text ++ "</span>"

/-- Embeds `_getInlineErrorMessage`: reads the attribute
`data-error-text-<rule>` from the unit's value source; an absent or empty
attribute yields null, otherwise the text is wrapped. -/
def getInlineErrorMessage (attrs : List (String × String)) (ruleName : String) :
    Option String :=
  match jsLookup attrs ("data-error-text-" ++ ruleName) with
  | none => none
  | some m => if m == "" then none else some (formatErrorMessage m)

/-- Embeds `_getContainerTemplateMessage`: looks for
`.error-template [data-rule="<rule>"]` under the root — modelled as a map
from rule name to the inner HTML of the first matching template — and
substitutes parameters into the found HTML.  The substitution function is a
parameter because the two validator revisions format differently. -/
def getContainerTemplateMessage (fm : String → List (String × String) → String)
    (tpls : List (String × String)) (ruleName : String)
    (params : List (String × String)) : Option String :=
  match jsLookup tpls ruleName with
  | none => none
  | some html => some (fm html params)

/-- The `separateTemplates` property that `_getSeparateTemplateMessage`
reads from the renderer's `DEFAULT_CONFIG`.  Every revision of the config
defines `legacyTemplates` instead, so the property is absent — in
JavaScript, `undefined`. -/
def DEFAULT_CONFIG_separateTemplates : Option (List (String × String)) := none

/-- Embeds `_getSeparateTemplateMessage`.  The first step evaluates
`DEFAULT_CONFIG.separateTemplates[ruleName]`; since the property is
`undefined`, indexing it throws a `TypeError`.  The remaining steps (selector
truthiness, root lookup, formatting) are written out but unreachable. -/
def getSeparateTemplateMessage (fm : String → List (String × String) → String)
    (rootTpls : List (String × String)) (ruleName : String)
    (params : List (String × String)) : Except JsErr (Option String) :=
  match DEFAULT_CONFIG_separateTemplates with
  | none => Except.error JsErr.typeError
  | some sep =>
    match jsLookup sep ruleName with
    | none => Except.ok none
    | some sel =>
      if sel == "" then Except.ok none
      else
        match jsLookup rootTpls sel with
        | none => Except.ok none
        | some html => Except.ok (some (fm html params))

/-- Embeds `_resolveDefaultMessage` of the current `field-validator.js`:
a falsy default yields null; a literal default has every `__KEY__` (key
uppercased) replaced by the parameter value, then is wrapped. -/
def resolveDefaultMessageC (dm : Option String) (params : List (String × String)) :
    Option String :=
  match dm with
  | none => none
  | some d =>
    if d == "" then none
    else
      some (formatErrorMessage
        (params.foldl (fun m kv => replaceAllLit m ("__" ++ jsToUpper kv.1 ++ "__") kv.2) d))

/-- Embeds `_resolveDefaultMessage` of the R9 revision: the literal default
goes through `_formatMessage` (case-insensitive) before wrapping. -/
def resolveDefaultMessageR9 (dm : Option String) (params : List (String × String)) :
    Option String :=
  match dm with
  | none => none
  | some d =>
    if d == "" then none
    else some (formatErrorMessage (formatMessageCI d params))

/-- Embeds `_getFallbackMessage`: a fixed wrapped text. -/
def getFallbackMessage : String :=
  formatErrorMessage "Field error"

/-- Embeds `_getErrorMessageWithLevel` of the current `field-validator.js`:
the five message sources are consulted in order and the first truthy result
is returned with its level.  Reaching the third source throws, because
`_getSeparateTemplateMessage` dereferences the absent `separateTemplates`
config property. -/
def getErrorMessageWithLevelC (attrs tpls rootTpls : List (String × String))
    (ruleName : String) (dm : Option String) (params : List (String × String)) :
    Except JsErr (String × Nat) :=
  let m1 := getInlineErrorMessage attrs ruleName
  if jsTruthyOptStr m1 then Except.ok (m1.getD "", 1)
  else
    let m2 := getContainerTemplateMessage formatMessageC tpls ruleName params
    if jsTruthyOptStr m2 then Except.ok (m2.getD "", 2)
    else
      match getSeparateTemplateMessage formatMessageC rootTpls ruleName params with
      | Except.error e => Except.error e
      | Except.ok m3 =>
        if jsTruthyOptStr m3 then Except.ok (m3.getD "", 3)
        else
          let m4 := resolveDefaultMessageC dm params
          if jsTruthyOptStr m4 then Except.ok (m4.getD "", 4)
          else Except.ok (getFallbackMessage, 5)

/-- Embeds `_getErrorMessageWithLevel` of the R9 revision; identical tier
structure, with the case-insensitive substitution in tiers two to four. -/
def getErrorMessageWithLevelR9 (attrs tpls rootTpls : List (String × String))
    (ruleName : String) (dm : Option String) (params : List (String × String)) :
    Except JsErr (String × Nat) :=
  let m1 := getInlineErrorMessage attrs ruleName
  if jsTruthyOptStr m1 then Except.ok (m1.getD "", 1)
  else
    let m2 := getContainerTemplateMessage formatMessageCI tpls ruleName params
    if jsTruthyOptStr m2 then Except.ok (m2.getD "", 2)
    else
      match getSeparateTemplateMessage formatMessageCI rootTpls ruleName params with
      | Except.error e => Except.error e
      | Except.ok m3 =>
        if jsTruthyOptStr m3 then Except.ok (m3.getD "", 3)
        else
          let m4 := resolveDefaultMessageR9 dm params
          if jsTruthyOptStr m4 then Except.ok (m4.getD "", 4)
          else Except.ok (getFallbackMessage, 5)

/-- Whether a rule result counts as a failure — embeds
`(result === false) || (result && result.valid === false)` of the current
file and the equivalent object-typed test of the R9 revision: only the
boolean `false`, or an object whose `valid` property is `false`. -/
def ruleFailed : RuleResult → Bool
  | RuleResult.rbool b => b == false
  | RuleResult.robj v _ => v == some false

/-- Embeds `result && result.params ? result.params : {}`: the parameters
carried by a failing object result, or the empty map. -/
def resultParams : RuleResult → List (String × String)
  | RuleResult.robj _ (some ps) => ps
  | _ => []

/-- A validation rule as the validator sees it: its name, its selector (an
absent or empty selector is falsy), whether the unit's value source matches
the selector, whether the rule carries a `validate` function, the result
that function returns for the current unit state, and the rule's default
message. -/
structure MRule where
  name : String
  selector : Option String
  selMatches : Bool
  hasValidate : Bool
  result : RuleResult
  defaultMessage : Option String
deriving DecidableEq, Repr

/-- Embeds `loadRules`: rules with a falsy selector are skipped with a
warning, the rest are kept when `$valueSource.is(rule.selector)` holds;
the registration order is preserved. -/
def applicableRules (rules : List MRule) : List MRule :=
  rules.filter (fun r =>
    (match r.selector with
     | none => false
     | some s => s != "") && r.selMatches)

/-- One element of a validation unit, with the data the validator branches
on: its `type` attribute, its current classes, and its ancestor chain
(nearest first, each with the flag "carries the `form-group` class"). -/
structure CElem where
  eid : Nat
  typeAttr : Option String
  classes : List String
  ancestors : List (Nat × Bool)
deriving DecidableEq, Repr

/-- Embeds `closest('.form-group')` from the element (the element itself is
an input control, not a container): the nearest flagged ancestor. -/
def closestFormGroup (e : CElem) : Option Nat :=
  (e.ancestors.find? (fun p => p.2)).map (fun p => p.1)

/-- The DOM-facing environment of one `FieldValidator`: the unit's
elements, the hidden/disabled state of its error screen, the value source's
attributes, the root's container templates and legacy standalone templates,
and the registered rules. -/
structure VEnv where
  elems : List CElem
  screenHidden : Bool
  screenDisabled : Bool
  inlineAttrs : List (String × String)
  containerTemplates : List (String × String)
  rootTemplates : List (String × String)
  rules : List MRule
deriving Repr

/-- Embeds `isVisibleForValidation`: the error screen is visible and not
disabled. -/
def isVisibleForValidation (env : VEnv) : Bool :=
  !env.screenHidden && !env.screenDisabled

/-- A DOM mutation the validator can perform, in execution order: clearing
through the unit's own renderer, removing or adding the `is-invalid` class
on every element of the unit, clearing or rendering through a dedicated
container renderer, or rendering through the unit's own renderer. -/
inductive VAction
  | clearRenderer
  | removeInvalidAll
  | clearContainer (cid : Nat)
  | addInvalidAll
  | renderOwn (msg : String)
  | renderContainer (cid : Nat) (msg : String)
deriving DecidableEq, Repr

/-- The rule loop of `validate` in the current `field-validator.js`: rules
without a `validate` function are skipped; otherwise the rule runs, and on
the first failure its message is resolved (which may throw) and rendered,
ending the loop with `false`.  The returned triple is the boolean result,
the render actions, and the names of the rules whose `validate` ran. -/
def validateLoopC (env : VEnv) :
    List MRule → List String → Except JsErr (Bool × List VAction × List String)
  | [], evald => Except.ok (true, [], evald)
  | r :: rs, evald =>
    if !r.hasValidate then validateLoopC env rs evald
    else
      let evald2 := evald ++ [r.name]
      if ruleFailed r.result then
        let ps := resultParams r.result
        match getErrorMessageWithLevelC env.inlineAttrs env.containerTemplates
            env.rootTemplates r.name r.defaultMessage ps with
        | Except.error e => Except.error e
        | Except.ok (m, _lvl) =>
          Except.ok (false, [VAction.renderOwn m], evald2)
      else validateLoopC env rs evald2

/-- Embeds `validate` of the current `field-validator.js`: hidden or
disabled units short-circuit to `true` with no action at all; otherwise the
renderer is cleared and the rule loop runs. -/
def validateC (env : VEnv) : Except JsErr (Bool × List VAction × List String) :=
  if !(isVisibleForValidation env) then Except.ok (true, [], [])
  else
    match validateLoopC env (applicableRules env.rules) [] with
    | Except.error e => Except.error e
    | Except.ok (b, acts, ev) => Except.ok (b, VAction.clearRenderer :: acts, ev)

/-- Embeds `_isFieldArray` of the R9 revision: more than one element. -/
def isFieldArray (env : VEnv) : Bool :=
  env.elems.length > 1

/-- Embeds `_isCheckboxOrRadioGroup` of the R9 revision: the first
element's `type` attribute is `checkbox` or `radio`. -/
def isCheckboxOrRadioGroup (env : VEnv) : Bool :=
  match env.elems.head? with
  | none => false
  | some e => e.typeAttr == some "checkbox" || e.typeAttr == some "radio"

/-- Embeds `clearError` of the R9 revision as its action trace: remove the
`is-invalid` class from every element, clear through the unit's renderer,
and for checkbox/radio groups additionally clear through a renderer built
on the first element's nearest `.form-group` ancestor, when one exists. -/
def r9ClearActions (env : VEnv) : List VAction :=
  [VAction.removeInvalidAll, VAction.clearRenderer] ++
    (if isFieldArray env && isCheckboxOrRadioGroup env then
      match env.elems.head? >>= closestFormGroup with
      | some cid => [VAction.clearContainer cid]
      | none => []
    else [])

/-- The rule loop of `validate` in the R9 revision.  There is no
`hasValidate` guard: calling an absent `validate` throws.  On the first
failure the message is resolved (which may throw) and the combined
highlighting branch runs: checkbox/radio groups class every element and
render once on the first element's nearest `.form-group` ancestor (falling
back to the unit's own renderer), all other units class their elements and
render through the unit's own renderer. -/
def validateLoopR9 (env : VEnv) : List MRule → Except JsErr (Bool × List VAction)
  | [] => Except.ok (true, [])
  | r :: rs =>
    if !r.hasValidate then Except.error JsErr.typeError
    else
      let ps := resultParams r.result
      if ruleFailed r.result then
        match getErrorMessageWithLevelR9 env.inlineAttrs env.containerTemplates
            env.rootTemplates r.name r.defaultMessage ps with
        | Except.error e => Except.error e
        | Except.ok (m, _lvl) =>
          if isFieldArray env && isCheckboxOrRadioGroup env then
            match env.elems.head? >>= closestFormGroup with
            | some cid =>
              Except.ok (false, [VAction.addInvalidAll, VAction.renderContainer cid m])
            | none =>
              Except.ok (false, [VAction.addInvalidAll, VAction.renderOwn m])
          else
            Except.ok (false, [VAction.addInvalidAll, VAction.renderOwn m])
      else validateLoopR9 env rs

/-- Embeds `validate` of the R9 revision: `clearError` runs first — even
for hidden or disabled units — then the visibility check, then the rule
loop; the clearing actions precede whatever the loop performs. -/
def validateR9 (env : VEnv) : Except JsErr (Bool × List VAction) :=
  let cacts := r9ClearActions env
  if !(isVisibleForValidation env) then Except.ok (true, cacts)
  else
    match validateLoopR9 env (applicableRules env.rules) with
    | Except.error e => Except.error e
    | Except.ok (b, acts) => Except.ok (b, cacts ++ acts)

/-- Applies one validator action to the unit's elements; render and
container actions touch other parts of the DOM and leave the elements
unchanged. -/
def applyVAction (elems : List CElem) : VAction → List CElem
  | VAction.addInvalidAll =>
    elems.map (fun e =>
      if e.classes.contains "is-invalid" then e
      else { e with classes := e.classes ++ ["is-invalid"] })
  | VAction.removeInvalidAll =>
    elems.map (fun e => { e with classes := e.classes.filter (fun c => c != "is-invalid") })
  | _ => elems

/-- Applies a validator action trace to the unit's elements in order. -/
def applyVActions (elems : List CElem) (acts : List VAction) : List CElem :=
  acts.foldl applyVAction elems

/-- The insertion targets of the render actions of a trace: `none` stands
for the unit's own renderer, `some cid` for a renderer built on container
`cid`. -/
def renderTargets (acts : List VAction) : List (Option Nat) :=
  acts.filterMap (fun a =>
    match a with
    | VAction.renderOwn _ => some none
    | VAction.renderContainer cid _ => some (some cid)
    | _ => none)

/-- The message-render target the R9 failure branch selects for the current
unit shape: checkbox/radio groups aim at the first element's nearest
`.form-group` ancestor when it exists, every other case uses the unit's own
renderer. -/
def r9FailTarget (env : VEnv) : Option Nat :=
  if isFieldArray env && isCheckboxOrRadioGroup env then
    env.elems.head? >>= closestFormGroup
  else none

/-- Embeds jQuery `hasClass`: for a nonempty class the usual membership
test; for the empty string the padded-string search degenerates to "the
element has no classes at all". -/
def jsHasClass (cls : String) (classes : List String) : Bool :=
  if cls == "" then classes.isEmpty else classes.contains cls

/-- Embeds jQuery `addClass` for one nonempty class token: appended once,
never duplicated; the empty string adds nothing. -/
def jsAddClass (cls : String) (classes : List String) : List String :=
  if cls == "" then classes
  else if classes.contains cls then classes
  else classes ++ [cls]

/-- Embeds jQuery `removeClass` with a multi-token argument: every
occurrence of every listed token is removed. -/
def jsRemoveClass (clsList : List String) (classes : List String) : List String :=
  classes.filter (fun c => !clsList.contains c)

/-- Embeds `String.prototype.includes` as used on the parent's class
attribute string. -/
def jsIncludesStr (s pat : String) : Bool :=
  pat == "" || (s.splitOn pat).length > 1

/-- The space-joined class attribute of an element, as `attr('class')`
returns it. -/
def classAttr (tokens : List String) : String :=
  " ".intercalate tokens

/-- The error classes of the three style profiles of `DEFAULT_CONFIG`
(`rails`, `bootstrap`, `custom`), empty strings filtered out — the list the
marker renderer's `clearError` removes. -/
def allErrorClassesCfg : List String :=
  ["form-error", "is-invalid"]

/-- The container (wrapper) classes of the three style profiles, empty
strings filtered out. -/
def allContainerClassesCfg : List String :=
  ["field_with_errors"]

/-- The error class of the default `bootstrap` style profile. -/
def bootstrapErrorClass : String :=
  "is-invalid"

/-- A node in the renderer's search region (the cached container's subtree
when the container exists, otherwise the error screen's siblings): its
`data-modia-error` marker if any, whether it sits inside an
`.error-template` block, and its content. -/
structure ENode where
  marker : Option String
  inTemplate : Bool
  content : String
deriving DecidableEq, Repr

/-- The marker value `_getErrorMarkerValue` computes:
container identity, a colon, field identity. -/
def markerValue (cid fid : String) : String :=
  cid ++ ":" ++ fid

/-- Whether one string starts with another, on the character lists of the
model. -/
def strStartsWith (s pre : String) : Bool :=
  pre.toList.isPrefixOf s.toList

/-- The selector `[data-modia-error^="<containerId>:"]` applied to one
node: the node carries a marker and that marker starts with the container
identity followed by a colon.  The field identity is not part of the
selector. -/
def markerMatchesContainer (cid : String) (n : ENode) : Bool :=
  match n.marker with
  | none => false
  | some m => strStartsWith m (cid ++ ":")

/-- The state one marker renderer (the revised `FieldErrorRenderer`) acts
on: the error screen's classes, the class lists of its ancestors (nearest
first — wrapping pushes, unwrapping pops), the nodes of the search region,
and the remembered last message.  The model keeps the region stable across
calls, which holds whenever the cached container exists and in the default
`bootstrap` style, where no wrapper is ever inserted. -/
structure RState where
  screenClasses : List String
  parentsClasses : List (List String)
  nodes : List ENode
  lastErrorMessage : Option String
deriving DecidableEq, Repr

/-- Embeds `hasError` of the marker renderer under the default `bootstrap`
style: the screen carries the error class, or the parent matches
`hasClass('')` (the empty container class of the style), or the search
region holds a node whose marker starts with this container's identity. -/
def hasErrorS (cid : String) (s : RState) : Bool :=
  jsHasClass bootstrapErrorClass s.screenClasses
    || (match s.parentsClasses.head? with
        | none => false
        | some pcs => jsHasClass "" pcs)
    || s.nodes.any (fun n => markerMatchesContainer cid n)

/-- Embeds `clearError` of the marker renderer.  The node removal selects
by container-identity marker only; the `preserveTemplates` filter callback
is bound to the renderer object, so its `closest` lookup always comes back
empty and the filter exempts nothing — both parameter values remove every
selected node.  Then every style's error class is removed from the screen,
and the parent is unwrapped when its class attribute contains a container
class as a substring. -/
def clearErrorS (cid : String) (_preserveTemplates : Bool) (s : RState) : RState :=
  let nodes2 := s.nodes.filter (fun n => !markerMatchesContainer cid n)
  let classes2 := jsRemoveClass allErrorClassesCfg s.screenClasses
  let parentStr := classAttr (s.parentsClasses.headD [])
  let parents2 :=
    if allContainerClassesCfg.any (fun c => jsIncludesStr parentStr c) then
      s.parentsClasses.tail
    else s.parentsClasses
  { screenClasses := classes2, parentsClasses := parents2, nodes := nodes2,
    lastErrorMessage := none }

/-- Embeds `renderError` of the marker renderer with no style argument
(default `bootstrap`): clear first when an error is present, build the
marked node, remember the message, add the error class to the screen, skip
the wrapper (the bootstrap container class is empty), and insert the node
into the region. -/
def renderErrorS (cid fid : String) (html : String) (s : RState) : RState :=
  let s1 := if hasErrorS cid s then clearErrorS cid false s else s
  let node : ENode := { marker := some (markerValue cid fid), inTemplate := false,
                        content := html }
  { s1 with
      lastErrorMessage := some html,
      screenClasses := jsAddClass bootstrapErrorClass s1.screenClasses,
      nodes := s1.nodes ++ [node] }

/-- A node near the legacy renderer's error screen: its classes and its
content. -/
structure CNode where
  classes : List String
  content : String
deriving DecidableEq, Repr

/-- The dynamic error classes of the legacy renderer's
`config.errorClasses` selector. -/
def errorClassesSel : List String :=
  ["text-danger", "invalid-feedback", "form-error-message"]

/-- The state the legacy (sibling-based) `FieldErrorRenderer` of
`field-error-renderer.js` acts on: the screen's classes, its ancestors'
class lists, the siblings before and after the screen (in order — the head
of `afterSibs` is the `next` sibling), the container descendants that are
not siblings of the screen, whether the cached container exists, and
whether the screen is a direct child of it (so that `append` lands among
the siblings). -/
structure CanonState where
  screenClasses : List String
  parentsClasses : List (List String)
  beforeSibs : List CNode
  afterSibs : List CNode
  containerOther : List CNode
  hasContainer : Bool
  screenDirectChild : Bool
  lastErrorMessage : Option String
deriving DecidableEq, Repr

/-- Embeds `hasError` of the legacy renderer under the default `bootstrap`
style: the error class on the screen, `hasClass('')` on the parent, or an
immediate next sibling carrying `field-error-message`. -/
def hasErrorC (s : CanonState) : Bool :=
  jsHasClass bootstrapErrorClass s.screenClasses
    || (match s.parentsClasses.head? with
        | none => false
        | some pcs => jsHasClass "" pcs)
    || (match s.afterSibs.head? with
        | none => false
        | some n => n.classes.contains "field-error-message")

/-- Embeds `clearError` of the legacy renderer: every sibling of the screen
matching one of the dynamic error classes is removed (the template
exemption filter is inert for the same bound-`this` reason as in the marker
renderer), the current style's error class is removed from the screen, and
the unwrap branch is skipped because the bootstrap container class is
empty.  Nodes that are not siblings of the screen are untouched. -/
def clearErrorC (s : CanonState) : CanonState :=
  let keep := fun (n : CNode) => !(n.classes.any (fun c => errorClassesSel.contains c))
  { s with
      beforeSibs := s.beforeSibs.filter keep,
      afterSibs := s.afterSibs.filter keep,
      screenClasses := jsRemoveClass [bootstrapErrorClass] s.screenClasses,
      lastErrorMessage := none }

/-- Embeds `renderError` of the legacy renderer with no style argument:
clear when `hasError()`, remember the message, add the error class, skip
the wrapper, build the `div.field-error-message.invalid-feedback` node, and
insert it — appended to the cached container when one exists (reaching the
siblings only when the screen is its direct child), otherwise right after
the screen. -/
def renderErrorC (html : String) (s : CanonState) : CanonState :=
  let s1 := if hasErrorC s then clearErrorC s else s
  let node : CNode := { classes := ["field-error-message", "invalid-feedback"],
                        content := html }
  let s2 := { s1 with
                screenClasses := jsAddClass bootstrapErrorClass s1.screenClasses,
                lastErrorMessage := some html }
  if s2.hasContainer then
    if s2.screenDirectChild then { s2 with afterSibs := s2.afterSibs ++ [node] }
    else { s2 with containerOther := s2.containerOther ++ [node] }
  else { s2 with afterSibs := node :: s2.afterSibs }

/-- The number of inserted message nodes visible around the legacy
renderer's unit: nodes carrying the `field-error-message` class among both
sibling lists and the non-sibling container descendants. -/
def messageNodeCount (s : CanonState) : Nat :=
  (s.beforeSibs ++ s.afterSibs ++ s.containerOther).countP
    (fun n => n.classes.contains "field-error-message")

/-- A marked element as the component scanner sees it: its identity, the
value of its `data-component` attribute, and whether a component instance
is already stored on it. -/
structure ScanElem where
  eid : Nat
  dataComponent : Option String
  instantiated : Bool
deriving DecidableEq, Repr

/-- A registered component class: its name and, for each element identity,
whether its constructor throws there. -/
structure CompClass where
  cname : String
  ctorThrows : Nat → Bool

/-- The per-class element walk of the latest `ComponentScanner.scan`
(revision dated 2026-02-19): already-instantiated elements are skipped with
a warning; a throwing constructor raises out of the walk, carrying the
instances pushed so far (the shared accumulator survives the exception). -/
def scanClassLatest (c : CompClass) :
    List ScanElem → List Nat → Except (List Nat) (List Nat)
  | [], acc => Except.ok acc
  | e :: es, acc =>
    if e.dataComponent != some c.cname then scanClassLatest c es acc
    else if e.instantiated then scanClassLatest c es acc
    else if c.ctorThrows e.eid then Except.error acc
    else scanClassLatest c es (acc ++ [e.eid])

/-- The registry walk of the latest `ComponentScanner.scan`, stopping the
whole walk at the first escaped constructor throw. -/
def scanRegistryLatest (elems : List ScanElem) :
    List CompClass → List Nat → List Nat
  | [], acc => acc
  | c :: cs, acc =>
    match scanClassLatest c elems acc with
    | Except.ok acc2 => scanRegistryLatest elems cs acc2
    | Except.error accAtThrow => accAtThrow

/-- Embeds the latest `ComponentScanner.scan`: the whole registry walk sits
inside one `try`/`catch`, so the first constructor throw is logged and ends
the entire scan — the function returns the instances created before the
throw and visits no further element. -/
def scanLatest (registry : List CompClass) (elems : List ScanElem) : List Nat :=
  scanRegistryLatest elems registry []

/-- Embeds `ComponentScanner.scan` of the v1.1.0 core revision: the
`try`/`catch` sits inside the per-element callback, so a throwing
constructor is logged and skipped and every remaining element is still
visited.  That revision has no already-instantiated check. -/
def scanV11 (registry : List CompClass) (elems : List ScanElem) : List Nat :=
  registry.foldl
    (fun acc c =>
      acc ++ (elems.filter (fun e => e.dataComponent == some c.cname)).filterMap
        (fun e => if c.ctorThrows e.eid then none else some e.eid))
    []

/-- The result of jQuery `.val()`: null/undefined, a string, or — for a
multiple select — the array of selected values. -/
inductive JQVal
  | vnull
  | vs (s : String)
  | varr (ss : List String)
deriving DecidableEq, Repr

/-- One element of a unit as `getFieldValue` sees it: its tag name, `type`
attribute, checked state, `contenteditable` presence, `.val()` result and
`.text()` content. -/
structure FElem where
  tag : String
  typeAttr : Option String
  checked : Bool
  contentEditable : Bool
  val : JQVal
  text : String
deriving DecidableEq, Repr

/-- Embeds `el.val() || ''`: null and the empty string collapse to the
empty string, a nonempty string stays, and an array — truthy in JavaScript
even when empty — is kept as an array. -/
def jqValOrEmpty : JQVal → JSValue
  | JQVal.vnull => JSValue.vstr ""
  | JQVal.vs s => JSValue.vstr s
  | JQVal.varr ss => JSValue.varr (ss.map JSValue.vstr)

/-- Embeds a raw `el.val()` with no `|| ''` default, as the checked branch
of the R9 revision returns it. -/
def jqValRaw : JQVal → JSValue
  | JQVal.vnull => JSValue.vnull
  | JQVal.vs s => JSValue.vstr s
  | JQVal.varr ss => JSValue.varr (ss.map JSValue.vstr)

/-- Embeds `String.prototype.trim` on the model's strings. -/
def jsTrim (s : String) : String :=
  s.trim

/-- The per-element mapper of the multi-element branch of `getFieldValue`
in the current `field-validator.js`: `input` and `select` contribute
`val() || ''`, every other tag contributes the empty string. -/
def mapElemValueC (e : FElem) : JSValue :=
  let tag := jsToLower e.tag
  if tag == "input" || tag == "select" then jqValOrEmpty e.val
  else JSValue.vstr ""

/-- Embeds `getFieldValue` of the current `field-validator.js` over a
nonempty unit (`$valueSource` is checked nonempty in the constructor): more
than one element maps each to its scalar; a single `input`, `textarea` or
`select` yields `val() || ''`; a single `contenteditable` element yields
its trimmed text; anything else yields the empty string. -/
def getFieldValueC (e0 : FElem) (rest : List FElem) : JSValue :=
  if rest.length > 0 then JSValue.varr ((e0 :: rest).map mapElemValueC)
  else
    let tag := jsToLower e0.tag
    if tag == "input" || tag == "textarea" || tag == "select" then jqValOrEmpty e0.val
    else if e0.contentEditable then JSValue.vstr (jsTrim e0.text)
    else JSValue.vstr ""

/-- The per-element mapper of the multi-element branch of `getFieldValue`
in the R9 revision: checked checkboxes and radios contribute their raw
value, unchecked ones the empty string; other inputs and selects contribute
`val() || ''`; every other tag the empty string. -/
def mapElemValueR9 (e : FElem) : JSValue :=
  let tag := jsToLower e.tag
  if tag == "input" then
    if e.typeAttr == some "checkbox" || e.typeAttr == some "radio" then
      if e.checked then jqValRaw e.val else JSValue.vstr ""
    else jqValOrEmpty e.val
  else if tag == "select" then jqValOrEmpty e.val
  else JSValue.vstr ""

/-- Embeds `getFieldValue` of the R9 revision over a nonempty unit.  The
single-element branch handles checked checkboxes/radios with a raw value,
other inputs and `textarea`/`select` with `val() || ''`, then
`contenteditable` text; the dedicated multiple-select branch of the source
sits behind the `select` test above it and is unreachable, so it does not
appear. -/
def getFieldValueR9 (e0 : FElem) (rest : List FElem) : JSValue :=
  if rest.length > 0 then JSValue.varr ((e0 :: rest).map mapElemValueR9)
  else
    let tag := jsToLower e0.tag
    if tag == "input" then
      if e0.typeAttr == some "checkbox" || e0.typeAttr == some "radio" then
        if e0.checked then jqValRaw e0.val else JSValue.vstr ""
      else jqValOrEmpty e0.val
    else if tag == "textarea" || tag == "select" then jqValOrEmpty e0.val
    else if e0.contentEditable then JSValue.vstr (jsTrim e0.text)
    else JSValue.vstr ""

/-- Whether a value is the JavaScript `null`/`undefined` of the model. -/
def isNullValue : JSValue → Bool
  | JSValue.vnull => true
  | _ => false

/-- Whether a value is a string of the model. -/
def isStringValue : JSValue → Bool
  | JSValue.vstr _ => true
  | _ => false

/-! Concrete fixtures used by the closed theorems below. -/

/-- A single text-control element inside container `5`. -/
def sampleElem : CElem :=
  ⟨0, none, [], [(5, true)]⟩

/-- A rule whose descriptor carries no `validate` function. -/
def ruleNoValidate : MRule :=
  ⟨"r0", some "[a]", true, false, RuleResult.rbool false, none⟩

/-- An applicable rule that passes. -/
def rulePasses : MRule :=
  ⟨"r1", some "[b]", true, true, RuleResult.rbool true, none⟩

/-- An applicable rule that fails with an object result. -/
def ruleFailsObj : MRule :=
  ⟨"r2", some "[c]", true, true, RuleResult.robj (some false) (some []), none⟩

/-- An applicable rule, after the failing one, that would also fail. -/
def ruleFailsBool : MRule :=
  ⟨"r3", some "[d]", true, true, RuleResult.rbool false, none⟩

/-- A visible unit whose rule list holds a guard-skipped rule, a passing
rule, a failing rule with a container template, and a later failing rule. -/
def envFirstFailure : VEnv :=
  ⟨[sampleElem], false, false, [], [("r2", "Fix r2")], [],
    [ruleNoValidate, rulePasses, ruleFailsObj, ruleFailsBool]⟩

/-- The built-in `required` rule on an empty unit: failing object result and
the literal default message of `validation-rules.js`. -/
def ruleRequired : MRule :=
  ⟨"required", some "[required]", true, true, RuleResult.robj (some false) (some []),
    some "This field is required"⟩

/-- A visible unit failing `required` with no inline override and no
container template — the configuration the spec resolves at tier four. -/
def envNoTemplates : VEnv :=
  ⟨[sampleElem], false, false, [], [], [], [ruleRequired]⟩

/-- A visible unit on which every applicable rule passes. -/
def envAllPass : VEnv :=
  ⟨[sampleElem], false, false, [], [], [], [rulePasses, ruleNoValidate, rulePasses]⟩

/-- A registry with a single component class whose constructor throws on
element `1` and succeeds elsewhere. -/
def throwingRegistry : List CompClass :=
  [⟨"validation", fun i => i == 1⟩]

/-- Two not-yet-instantiated marked subtrees; the constructor throws on the
first and would succeed on the second. -/
def twoMarkedElems : List ScanElem :=
  [⟨1, some "validation", false⟩, ⟨2, some "validation", false⟩]

/-- A legacy-renderer unit whose error screen sits inside a wrapper `div`
inside the cached `.form-group` container, so `container.append` does not
land among the screen's siblings.  No error is shown yet. -/
def nestedScreenState : CanonState :=
  ⟨[], [["wrap"]], [], [], [], true, false, none⟩

/-- A dynamic error node of a different unit — field `f2` — in the same
container `c`. -/
def otherUnitsErrorNode : ENode :=
  ⟨some "c:f2", false, "other units message"⟩

/-- A marker-renderer region holding only the sibling unit's error node. -/
def sharedContainerState : RState :=
  ⟨[], [], [otherUnitsErrorNode], none⟩

/-- An unmarked node inside the shared `.error-template` block. -/
def templateBlockNode : ENode :=
  ⟨none, true, "template text"⟩

/-- A marker-renderer region holding only the template block's node. -/
def templateOnlyState : RState :=
  ⟨[], [], [templateBlockNode], none⟩

/-- A hidden unit with a failing `required` rule. -/
def envHidden : VEnv :=
  ⟨[sampleElem], true, false, [], [], [], [ruleRequired]⟩

/-- The first radio of a choice group whose two members share the
`.form-group` container `10`. -/
def radioShared1 : CElem :=
  ⟨1, some "radio", [], [(10, true)]⟩

/-- The second radio of the shared-container choice group. -/
def radioShared2 : CElem :=
  ⟨2, some "radio", [], [(10, true)]⟩

/-- A failing `required` rule with no default message; the message comes
from the inline attribute of the environments below. -/
def ruleReqInline : MRule :=
  ⟨"required", some "[required]", true, true, RuleResult.robj (some false) (some []), none⟩

/-- A visible choice-group unit failing `required`, both radios inside the
same `.form-group`, message provided inline. -/
def envChoiceShared : VEnv :=
  ⟨[radioShared1, radioShared2], false, false,
    [("data-error-text-required", "Choose one")], [], [], [ruleReqInline]⟩

/-- The first radio of a choice group whose members sit in two different
`.form-group` containers (`10` and `20`). -/
def radioSplit1 : CElem :=
  ⟨1, some "radio", [], [(10, true)]⟩

/-- The second radio, inside container `20` only. -/
def radioSplit2 : CElem :=
  ⟨2, some "radio", [], [(20, true)]⟩

/-- A visible choice-group unit failing `required` whose two radios do not
share a `.form-group` ancestor. -/
def envChoiceSplit : VEnv :=
  ⟨[radioSplit1, radioSplit2], false, false,
    [("data-error-text-required", "Choose one")], [], [], [ruleReqInline]⟩

/-- The action trace the R9 `validate` produces for the failing
choice-group environments above. -/
def choiceFailureActs : List VAction :=
  [VAction.removeInvalidAll, VAction.clearRenderer, VAction.clearContainer 10,
    VAction.addInvalidAll,
    VAction.renderContainer 10 "<span class=\"text-danger\">Choose one</span>"]

/-- A single multiple-select element with one selected value. -/
def multiSelectElem : FElem :=
  ⟨"select", none, false, false, JQVal.varr ["a"], ""⟩

/-- A single text input holding a value. -/
def textInputElem : FElem :=
  ⟨"input", some "text", false, false, JQVal.vs "hello", ""⟩

end Modia

namespace Modia

/-! Helper lemmas shared by several claim theorems. -/

/-- The source's `isEmpty` and the specification's blankness test agree on
every value and on every list of values. -/
theorem isEmpty_specBlank_both :
    (∀ v : JSValue, isEmpty v = specBlank v) ∧
      (∀ l : List JSValue, allEmpty l = specAllBlank l) := by
  refine isEmpty.mutual_induct (fun v => isEmpty v = specBlank v)
    (fun l => allEmpty l = specAllBlank l) ?_ ?_ ?_ ?_ ?_
  · simp [isEmpty, specBlank]
  · intro s; simp [isEmpty, specBlank]
  · intro vs ih
    simp [isEmpty, specBlank, ih]
    intro h
    subst h
    simp [allEmpty, specAllBlank] at ih ⊢
  · simp [allEmpty, specAllBlank]
  · intro v tl ih1 ih2
    simp [allEmpty, specAllBlank, ih1, ih2]

/-- The source's `isEmpty` equals the specification's blankness test. -/
theorem isEmpty_eq_specBlank (v : JSValue) : isEmpty v = specBlank v :=
  isEmpty_specBlank_both.1 v

/-- C1.  For a unit whose resolved value is an array, the built-in
`required` rule passes (returns the boolean `true`) iff at least one member
is non-blank in the specification's sense, and fails (returns the
`valid: false` object with empty params) iff every member is blank. -/
theorem c1_required_passes_iff_member_nonblank (vs : List JSValue) :
    (requiredValidate (JSValue.varr vs) = RuleResult.rbool true
      ↔ ∃ v ∈ vs, specBlank v = false)
    ∧ (requiredValidate (JSValue.varr vs) = RuleResult.robj (some false) (some [])
      ↔ ∀ v ∈ vs, specBlank v = true) := by
  have key : requiredValidate (JSValue.varr vs)
      = (if vs.any (fun v => !specBlank v) then RuleResult.rbool true
         else RuleResult.robj (some false) (some [])) := by
    unfold requiredValidate normalizeToArray
    have hb : (vs.any (fun v => !isEmpty v)) = (vs.any (fun v => !specBlank v)) := by
      induction vs with
      | nil => rfl
      | cons v tl ih => simp [List.any_cons, ih, isEmpty_eq_specBlank]
    rw [hb]
  rw [key]
  by_cases h : vs.any (fun v => !specBlank v) = true
  · rw [if_pos h]
    simp only [List.any_eq_true, Bool.not_eq_true'] at h
    obtain ⟨w, hw, hwb⟩ := h
    refine ⟨⟨fun _ => ⟨w, hw, hwb⟩, fun _ => rfl⟩, ?_, ?_⟩
    · intro hcontra
      exact absurd hcontra (by simp)
    · intro hall
      exact absurd (hall w hw) (by simp [hwb])
  · have hf : vs.any (fun v => !specBlank v) = false := eq_false_of_ne_true h
    rw [if_neg h]
    simp only [List.any_eq_false, Bool.not_eq_true'] at hf
    constructor
    · constructor
      · intro hcontra
        exact absurd hcontra (by simp)
      · intro hex
        obtain ⟨w, hw, hwb⟩ := hex
        exact absurd hwb (hf w hw)
    · refine ⟨fun _ => ?_, fun _ => rfl⟩
      intro v hv
      have := hf v hv
      simpa using this

/-- C2.  Rule iteration in `validate` of the current `field-validator.js`,
evaluated at concrete inputs.  First conjunct: with a guard-skipped rule, a
passing rule, a failing rule whose container template exists, and a later
failing rule, `validate` clears, evaluates exactly the passing and the
first failing rule (in registration order), renders the failing rule's
resolved message and returns `false` — the later failing rule is never
evaluated.  Second conjunct: when every evaluated rule passes, `validate`
returns `true`.  Third conjunct — the divergence: when the first failing
rule has neither an inline override nor a container template, `validate`
does not return `false` with the rule's default message: it throws the
`TypeError` raised by the tier-three lookup of the absent
`separateTemplates` config property, rendering nothing. -/
theorem c2_first_failure_wins_but_resolution_can_throw :
    validateC envFirstFailure
        = Except.ok (false, [VAction.clearRenderer, VAction.renderOwn "Fix r2"],
            ["r1", "r2"])
      ∧ validateC envAllPass = Except.ok (true, [VAction.clearRenderer], ["r1", "r1"])
      ∧ validateC envNoTemplates = Except.error JsErr.typeError :=
  ⟨rfl, rfl, rfl⟩

/-- C3.  Message resolution at concrete inputs.  First conjunct: when both
an inline override and a container template exist for the same rule and
field, `_getErrorMessageWithLevel` returns the wrapped inline override with
tier `1`.  Second conjunct — the divergence: when tiers one and two miss,
resolution does not fall through to the rule's default message at tier
four; it throws the `TypeError` raised by reading
`DEFAULT_CONFIG.separateTemplates` (the config defines `legacyTemplates`),
so tiers three to five are unreachable. -/
theorem c3_inline_wins_but_lower_tiers_throw :
    getErrorMessageWithLevelC [("data-error-text-required", "Mandatory")]
        [("required", "Fill the field")] [] "required" (some "This field is required") []
        = Except.ok ("<span class=\"text-danger\">Mandatory</span>", 1)
      ∧ getErrorMessageWithLevelC [] [] [] "required" (some "This field is required") []
        = Except.error JsErr.typeError :=
  ⟨rfl, rfl⟩

/-- C4.  Placeholder substitution at the specification's own example.  The
`_formatMessage` of the current `field-validator.js` looks the stripped key
up case-sensitively, so the template `"Max __count__"` with params
`COUNT = 5` keeps the token verbatim instead of producing `"Max 5"`; the R9
revision's case-insensitive `_formatMessage` produces `"Max 5"` as the
specification, the unit tests and the API documentation describe. -/
theorem c4_case_sensitive_lookup_breaks_substitution :
    formatMessageC "Max __count__" [("COUNT", "5")] = "Max __count__"
      ∧ formatMessageCI "Max __count__" [("COUNT", "5")] = "Max 5" :=
  ⟨rfl, rfl⟩

/-- C9.  Scanner failure isolation at a concrete document with two marked
subtrees whose component constructor throws on the first.  The latest
`scan` (whole walk inside one `try`/`catch`) returns no instance at all:
the throw ends the walk and the second subtree is never instantiated.  The
v1.1.0 revision (per-element `try`/`catch`) still instantiates the second
subtree, as the claim states. -/
theorem c9_scan_throw_aborts_remaining_subtrees :
    scanLatest throwingRegistry twoMarkedElems = []
      ∧ scanV11 throwingRegistry twoMarkedElems = [2] :=
  ⟨rfl, rfl⟩

/-- The node `renderError` of the marker renderer inserts always matches
its own container selector. -/
theorem markerMatches_mk (cid fid html : String) :
    markerMatchesContainer cid ⟨some (markerValue cid fid), false, html⟩ = true := by
  simp only [markerMatchesContainer, markerValue, strStartsWith]
  rw [List.isPrefixOf_iff_prefix]
  have h : (cid ++ ":" ++ fid).toList = (cid ++ ":").toList ++ fid.toList := rfl
  rw [h]
  exact List.prefix_append _ _

/-- A region holding a node of this unit makes `hasError` true. -/
theorem hasErrorS_of_marker (cid fid html : String) (s : RState)
    (h : (⟨some (markerValue cid fid), false, html⟩ : ENode) ∈ s.nodes) :
    hasErrorS cid s = true := by
  simp only [hasErrorS, Bool.or_eq_true, List.any_eq_true]
  exact Or.inr ⟨_, h, markerMatches_mk cid fid html⟩

/-- Removing every style's error class and adding the default one back
leaves exactly one occurrence of the default error class. -/
theorem count_add_remove (l : List String) :
    (jsAddClass bootstrapErrorClass (jsRemoveClass allErrorClassesCfg l)).count
      "is-invalid" = 1 := by
  have hmem : "is-invalid" ∉ jsRemoveClass allErrorClassesCfg l := by
    simp [jsRemoveClass, List.mem_filter, allErrorClassesCfg]
  unfold jsAddClass bootstrapErrorClass
  rw [if_neg (by decide)]
  rw [if_neg (by simpa using hmem)]
  rw [List.count_append]
  rw [List.count_eq_zero.mpr hmem]
  rfl

/-- Two consecutive `renderError` calls of the marker renderer, from any
region state: exactly one node of this unit remains, the error class is
applied exactly once, and the second call adds nothing the first did not
(it first clears the previous node). -/
theorem renderErrorS_twice (s : RState) (cid fid msg : String) :
    ((renderErrorS cid fid msg (renderErrorS cid fid msg s)).nodes.countP
        (fun n => markerMatchesContainer cid n) = 1)
    ∧ ((renderErrorS cid fid msg (renderErrorS cid fid msg s)).screenClasses.count
        "is-invalid" = 1)
    ∧ (renderErrorS cid fid msg (renderErrorS cid fid msg s)).nodes
        = (renderErrorS cid fid msg s).nodes := by
  set node : ENode := ⟨some (markerValue cid fid), false, msg⟩ with hnode
  obtain ⟨keep, hkeep, hclean⟩ :
      ∃ keep, (renderErrorS cid fid msg s).nodes = keep ++ [node]
        ∧ ∀ n ∈ keep, markerMatchesContainer cid n = false := by
    by_cases h : hasErrorS cid s = true
    · refine ⟨(clearErrorS cid false s).nodes, ?_, ?_⟩
      · simp [renderErrorS, h, hnode]
      · intro n hn
        simp only [clearErrorS, List.mem_filter] at hn
        simpa using hn.2
    · have hfalse : hasErrorS cid s = false := eq_false_of_ne_true h
      refine ⟨s.nodes, ?_, ?_⟩
      · simp [renderErrorS, hfalse, hnode]
      · intro n hn
        have hany : s.nodes.any (fun n => markerMatchesContainer cid n) = false := by
          revert hfalse
          simp only [hasErrorS, Bool.or_eq_false_iff]
          intro h2
          exact h2.2
        rw [List.any_eq_false] at hany
        simpa using hany n hn
  have hr1mem : node ∈ (renderErrorS cid fid msg s).nodes := by
    rw [hkeep]; simp
  have hhas : hasErrorS cid (renderErrorS cid fid msg s) = true := by
    refine hasErrorS_of_marker cid fid msg _ ?_
    simpa [hnode] using hr1mem
  have hr2nodes : (renderErrorS cid fid msg (renderErrorS cid fid msg s)).nodes
      = keep ++ [node] := by
    conv_lhs => rw [renderErrorS]
    simp only [hhas, if_true, clearErrorS]
    rw [hkeep, List.filter_append]
    have h1 : keep.filter (fun n => !markerMatchesContainer cid n) = keep :=
      List.filter_eq_self.mpr (fun a ha => by simp [hclean a ha])
    have h2 : [node].filter (fun n => !markerMatchesContainer cid n) = [] := by
      simp [hnode, markerMatches_mk]
    rw [h1, h2]
    simp [hnode]
  refine ⟨?_, ?_, ?_⟩
  · rw [hr2nodes, List.countP_append]
    have h0 : keep.countP (fun n => markerMatchesContainer cid n) = 0 := by
      rw [List.countP_eq_zero]
      intro a ha
      simp [hclean a ha]
    rw [h0]
    simp [hnode, markerMatches_mk]
  · conv_lhs => rw [renderErrorS]
    simp only [hhas, if_true, clearErrorS]
    exact count_add_remove _
  · rw [hr2nodes, hkeep]

/-- Two consecutive `clearError` calls of the marker renderer, from any
region state: no node of this unit remains, no error class remains, and the
second call changes neither the region nor the screen's classes. -/
theorem clearErrorS_twice (s : RState) (cid : String) :
    ((clearErrorS cid true (clearErrorS cid true s)).nodes.countP
        (fun n => markerMatchesContainer cid n) = 0)
    ∧ ("is-invalid" ∉ (clearErrorS cid true (clearErrorS cid true s)).screenClasses)
    ∧ (clearErrorS cid true (clearErrorS cid true s)).nodes
        = (clearErrorS cid true s).nodes
    ∧ (clearErrorS cid true (clearErrorS cid true s)).screenClasses
        = (clearErrorS cid true s).screenClasses := by
  refine ⟨?_, ?_, ?_, ?_⟩
  · rw [List.countP_eq_zero]
    intro a ha
    simp only [clearErrorS, List.mem_filter] at ha
    simpa using ha.1.2
  · intro hmem
    simp [clearErrorS, jsRemoveClass, List.mem_filter, allErrorClassesCfg] at hmem
  · simp only [clearErrorS]
    rw [List.filter_filter]
    congr 1
    funext n
    simp [Bool.and_self]
  · simp only [clearErrorS, jsRemoveClass]
    rw [List.filter_filter]
    congr 1
    funext c
    simp [Bool.and_self]

/-- C5 (amended).  For the marker-based `FieldErrorRenderer` revision,
from every unit state: calling `renderError` twice in a row leaves exactly
one error node of the unit's container and exactly one application of the
error class, the second call replacing the first error rather than
accumulating; calling `clearError` twice in a row leaves zero error nodes
and no error class, the second call changing nothing. -/
theorem c5_marker_renderer_render_clear_idempotent (s : RState) (cid fid msg : String) :
    (((renderErrorS cid fid msg (renderErrorS cid fid msg s)).nodes.countP
        (fun n => markerMatchesContainer cid n) = 1)
      ∧ ((renderErrorS cid fid msg (renderErrorS cid fid msg s)).screenClasses.count
          "is-invalid" = 1)
      ∧ (renderErrorS cid fid msg (renderErrorS cid fid msg s)).nodes
          = (renderErrorS cid fid msg s).nodes)
    ∧ (((clearErrorS cid true (clearErrorS cid true s)).nodes.countP
        (fun n => markerMatchesContainer cid n) = 0)
      ∧ ("is-invalid" ∉ (clearErrorS cid true (clearErrorS cid true s)).screenClasses)
      ∧ (clearErrorS cid true (clearErrorS cid true s)).nodes
          = (clearErrorS cid true s).nodes
      ∧ (clearErrorS cid true (clearErrorS cid true s)).screenClasses
          = (clearErrorS cid true s).screenClasses) :=
  ⟨renderErrorS_twice s cid fid msg, clearErrorS_twice s cid⟩

/-- C5 counterexample.  For the legacy sibling-based renderer of
`field-error-renderer.js`, a unit whose error screen is not a direct child
of its cached container refutes the claim as stated: two consecutive
`renderError` calls leave two message nodes, not one — `clearError` only
searches the screen's siblings, while `renderError` appends into the
container. -/
theorem c5_legacy_renderer_duplicates_message_node :
    messageNodeCount (renderErrorC "E" (renderErrorC "E" nestedScreenState)) = 2
      ∧ messageNodeCount (renderErrorC "E" (renderErrorC "E" nestedScreenState)) ≠ 1 :=
  ⟨rfl, by decide⟩

/-- C8 (amended).  The marker renderer's `clearError` selects nodes by the
container-identity part of the marker only: every node whose marker starts
with this unit's container identity is removed — including nodes of sibling
units in the same container — and every other node survives; in particular
the unmarked nodes of the shared message-template block are never
removed. -/
theorem c8_clear_removes_exactly_container_marked_nodes (cid : String) (pt : Bool)
    (s : RState) (n : ENode) (hn : n ∈ s.nodes) :
    (markerMatchesContainer cid n = true → n ∉ (clearErrorS cid pt s).nodes)
    ∧ (markerMatchesContainer cid n = false → n ∈ (clearErrorS cid pt s).nodes)
    ∧ (n.marker = none → n ∈ (clearErrorS cid pt s).nodes) := by
  refine ⟨?_, ?_, ?_⟩
  · intro hmatch hmem
    simp only [clearErrorS, List.mem_filter] at hmem
    rw [hmatch] at hmem
    simpa using hmem.2
  · intro hnomatch
    simp only [clearErrorS, List.mem_filter]
    exact ⟨hn, by simp [hnomatch]⟩
  · intro hnone
    simp only [clearErrorS, List.mem_filter]
    refine ⟨hn, ?_⟩
    simp [markerMatchesContainer, hnone]

/-- Witness for C8: clearing over a region holding only the template
block's unmarked node keeps that node. -/
theorem c8_clear_removes_exactly_container_marked_nodes_witness :
    (markerMatchesContainer "c" templateBlockNode = true
        → templateBlockNode ∉ (clearErrorS "c" true templateOnlyState).nodes)
    ∧ (markerMatchesContainer "c" templateBlockNode = false
        → templateBlockNode ∈ (clearErrorS "c" true templateOnlyState).nodes)
    ∧ (templateBlockNode.marker = none
        → templateBlockNode ∈ (clearErrorS "c" true templateOnlyState).nodes) :=
  c8_clear_removes_exactly_container_marked_nodes "c" true templateOnlyState
    templateBlockNode (by simp [templateOnlyState])

/-- C8 counterexample.  The claim says `clearError` never removes error
nodes belonging to a different unit sharing the container; clearing for
unit `(c, f1)` over a region holding only unit `(c, f2)`'s marked node
removes that node, because the removal selector matches the container
identity prefix `c:` alone. -/
theorem c8_clear_removes_sibling_units_error :
    (clearErrorS "c" true sharedContainerState).nodes = []
      ∧ otherUnitsErrorNode ∉ (clearErrorS "c" true sharedContainerState).nodes :=
  ⟨rfl, by decide⟩

/-- C6 (amended).  A unit whose error screen is hidden or disabled is
treated as passing by both validator revisions: `validate` returns `true`.
The current `field-validator.js` performs no DOM action at all; the R9
revision first clears any previously rendered error (its `clearError`
actions) before skipping. -/
theorem c6_hidden_unit_passes_without_render (env : VEnv)
    (h : isVisibleForValidation env = false) :
    validateC env = Except.ok (true, [], [])
      ∧ validateR9 env = Except.ok (true, r9ClearActions env) := by
  constructor
  · simp [validateC, h]
  · simp [validateR9, h]

/-- Witness for C6: the hidden fixture unit. -/
theorem c6_hidden_unit_passes_without_render_witness :
    validateC envHidden = Except.ok (true, [], [])
      ∧ validateR9 envHidden = Except.ok (true, r9ClearActions envHidden) :=
  c6_hidden_unit_passes_without_render envHidden rfl

/-- C6 counterexample.  The claim says a hidden unit's `validate` performs
no DOM mutation — in particular it does not clear a previously rendered
error.  The R9 revision's `validate` calls `clearError` before the
visibility check, so on the hidden fixture it returns `true` together with
clearing actions, not the empty action list the claim requires. -/
theorem c6_r9_clears_before_visibility_check :
    validateR9 envHidden
        = Except.ok (true, [VAction.removeInvalidAll, VAction.clearRenderer])
      ∧ validateR9 envHidden ≠ Except.ok (true, []) := by
  refine ⟨rfl, ?_⟩
  intro hc
  rw [show validateR9 envHidden
      = Except.ok (true, [VAction.removeInvalidAll, VAction.clearRenderer]) from rfl] at hc
  simp at hc

/-- When the R9 rule loop reports a failure, its action list is exactly one
class application to every element followed by one message render, aimed at
the target the failure branch selects for the unit's shape. -/
theorem validateLoopR9_failure_shape (env : VEnv) :
    ∀ rs acts, validateLoopR9 env rs = Except.ok (false, acts) →
      ∃ m, acts = [VAction.addInvalidAll,
        match r9FailTarget env with
        | some cid => VAction.renderContainer cid m
        | none => VAction.renderOwn m] := by
  intro rs
  induction rs with
  | nil =>
    intro acts h
    simp [validateLoopR9] at h
  | cons r rs ih =>
    intro acts h
    rw [validateLoopR9] at h
    by_cases hv : r.hasValidate = true
    · rw [hv] at h
      simp only [Bool.not_true, Bool.false_eq_true, if_false] at h
      by_cases hf : ruleFailed r.result = true
      · rw [if_pos hf] at h
        revert h
        cases hres : getErrorMessageWithLevelR9 env.inlineAttrs env.containerTemplates
            env.rootTemplates r.name r.defaultMessage (resultParams r.result) with
        | error e => intro h; cases h
        | ok p =>
          obtain ⟨m, lvl⟩ := p
          intro h
          simp only [] at h
          by_cases hg : (isFieldArray env && isCheckboxOrRadioGroup env) = true
          · rw [if_pos hg] at h
            revert h
            cases hcl : env.elems.head? >>= closestFormGroup with
            | some cid =>
              intro h
              refine ⟨m, ?_⟩
              simp only [Except.ok.injEq, Prod.mk.injEq] at h
              rw [← h.2]
              simp [r9FailTarget, hg, hcl]
            | none =>
              intro h
              refine ⟨m, ?_⟩
              simp only [Except.ok.injEq, Prod.mk.injEq] at h
              rw [← h.2]
              simp [r9FailTarget, hg, hcl]
          · rw [if_neg hg] at h
            refine ⟨m, ?_⟩
            simp only [Except.ok.injEq, Prod.mk.injEq] at h
            rw [← h.2]
            have hgf : (isFieldArray env && isCheckboxOrRadioGroup env) = false :=
              eq_false_of_ne_true hg
            simp [r9FailTarget, hgf]
      · rw [if_neg hf] at h
        exact ih acts h
    · have hnv : (!r.hasValidate) = true := by simp [eq_false_of_ne_true hv]
      rw [hnv] at h
      simp at h

/-- The R9 `clearError` action trace contains no message render. -/
theorem renderTargets_r9ClearActions (env : VEnv) :
    renderTargets (r9ClearActions env) = [] := by
  unfold r9ClearActions renderTargets
  rw [List.filterMap_append]
  split
  · split <;> rfl
  · rfl

/-- After the class-all action, every element carries the error class. -/
theorem mem_applyVAction_add (l : List CElem) (e : CElem)
    (h : e ∈ applyVAction l VAction.addInvalidAll) : "is-invalid" ∈ e.classes := by
  simp only [applyVAction, List.mem_map] at h
  obtain ⟨x, _, hx⟩ := h
  by_cases hc : x.classes.contains "is-invalid" = true
  · rw [if_pos hc] at hx
    subst hx
    simpa using hc
  · rw [if_neg hc] at hx
    subst hx
    simp

/-- C7 (amended).  Whenever the R9 `validate` reports a failing unit, its
action trace carries exactly one message render, aimed at the first
element's nearest `.form-group` ancestor for checkbox/radio groups (the
unit's own renderer otherwise and when no such ancestor exists), and after
the trace is applied every element of the unit carries the error-state
class.  The target is the group's shared container whenever all members
share that ancestor. -/
theorem c7_failure_classes_all_and_renders_once (env : VEnv) (acts : List VAction)
    (h : validateR9 env = Except.ok (false, acts)) :
    renderTargets acts = [r9FailTarget env]
      ∧ ∀ e ∈ applyVActions env.elems acts, "is-invalid" ∈ e.classes := by
  rw [validateR9] at h
  by_cases hvis : isVisibleForValidation env = true
  · rw [hvis] at h
    simp only [Bool.not_true, Bool.false_eq_true, if_false] at h
    revert h
    cases hloop : validateLoopR9 env (applicableRules env.rules) with
    | error e => intro h; cases h
    | ok p =>
      obtain ⟨b, acts0⟩ := p
      intro h
      simp only [Except.ok.injEq, Prod.mk.injEq] at h
      obtain ⟨hb, hacts⟩ := h
      subst hb
      obtain ⟨m, hacts0⟩ := validateLoopR9_failure_shape env (applicableRules env.rules)
        acts0 hloop
      subst hacts0
      subst hacts
      constructor
      · rw [renderTargets, List.filterMap_append]
        rw [show (r9ClearActions env).filterMap _ = renderTargets (r9ClearActions env)
          from rfl]
        rw [renderTargets_r9ClearActions]
        cases htgt : r9FailTarget env <;> simp [renderTargets, htgt]
      · intro e he
        rw [applyVActions, List.foldl_append] at he
        cases htgt : r9FailTarget env <;> rw [htgt] at he <;>
          simp only [List.foldl_cons, List.foldl_nil] at he
        · exact mem_applyVAction_add _ e (by simpa [applyVAction] using he)
        · exact mem_applyVAction_add _ e (by simpa [applyVAction] using he)
  · have hf : isVisibleForValidation env = false := eq_false_of_ne_true hvis
    rw [hf] at h
    simp at h

/-- Witness for C7: the shared-container choice group, whose failure trace
renders once on container `10` and classes both radios. -/
theorem c7_failure_classes_all_and_renders_once_witness :
    renderTargets choiceFailureActs = [r9FailTarget envChoiceShared]
      ∧ ∀ e ∈ applyVActions envChoiceShared.elems choiceFailureActs,
          "is-invalid" ∈ e.classes :=
  c7_failure_classes_all_and_renders_once envChoiceShared choiceFailureActs rfl

/-- C7 counterexample.  The claim says the single message node is placed on
the group's nearest shared ancestor container.  For the split choice group
— each radio in its own `.form-group` — the failing trace renders on
container `10`, the first radio's own container, which is not an ancestor
of the second radio at all: the target is not shared. -/
theorem c7_message_not_on_shared_ancestor :
    validateR9 envChoiceSplit = Except.ok (false, choiceFailureActs)
      ∧ (radioSplit2.ancestors.map Prod.fst).contains 10 = false :=
  ⟨rfl, rfl⟩

/-- A value of the form `val() || ''` is never null. -/
theorem jqValOrEmpty_not_null (v : JQVal) : isNullValue (jqValOrEmpty v) = false := by
  cases v <;> rfl

/-- The multi-element mapper of the current revision never yields null. -/
theorem mapElemValueC_not_null (e : FElem) : isNullValue (mapElemValueC e) = false := by
  simp only [mapElemValueC]
  split
  · exact jqValOrEmpty_not_null _
  · rfl

/-- The multi-element mapper of the R9 revision never yields null, given
that inputs carry a non-null jQuery value (as `input` controls do). -/
theorem mapElemValueR9_not_null (e : FElem)
    (h : jsToLower e.tag = "input" → e.val ≠ JQVal.vnull) :
    isNullValue (mapElemValueR9 e) = false := by
  simp only [mapElemValueR9]
  split_ifs with h1 h2 h3 h4
  · cases hval : e.val with
    | vnull => exact absurd hval (h (by simpa using h1))
    | vs s => rfl
    | varr ss => rfl
  · rfl
  · exact jqValOrEmpty_not_null _
  · exact jqValOrEmpty_not_null _
  · rfl

/-- C10 (amended).  Both revisions of `getFieldValue` are total and never
return null/undefined (inputs carry non-null jQuery values): a multi-element
unit yields an array with one non-null entry per element, and a
single-element unit yields a string — except a multiple-select whose jQuery
value is an array, which is returned as that array of strings. -/
theorem c10_getFieldValue_total_shape (e0 : FElem) (rest : List FElem)
    (hwf : ∀ e ∈ e0 :: rest, jsToLower e.tag = "input" → e.val ≠ JQVal.vnull) :
    (isNullValue (getFieldValueC e0 rest) = false)
    ∧ (isNullValue (getFieldValueR9 e0 rest) = false)
    ∧ (rest ≠ [] → ∃ vs, getFieldValueC e0 rest = JSValue.varr vs
        ∧ vs.length = rest.length + 1 ∧ ∀ v ∈ vs, isNullValue v = false)
    ∧ (rest ≠ [] → ∃ vs, getFieldValueR9 e0 rest = JSValue.varr vs
        ∧ vs.length = rest.length + 1 ∧ ∀ v ∈ vs, isNullValue v = false)
    ∧ (rest = [] → isStringValue (getFieldValueC e0 rest) = true
        ∨ ∃ l, e0.val = JQVal.varr l
            ∧ getFieldValueC e0 rest = JSValue.varr (l.map JSValue.vstr))
    ∧ (rest = [] → isStringValue (getFieldValueR9 e0 rest) = true
        ∨ ∃ l, e0.val = JQVal.varr l
            ∧ getFieldValueR9 e0 rest = JSValue.varr (l.map JSValue.vstr)) := by
  have hsingleC : rest = [] →
      isStringValue (getFieldValueC e0 rest) = true
        ∨ ∃ l, e0.val = JQVal.varr l
            ∧ getFieldValueC e0 rest = JSValue.varr (l.map JSValue.vstr) := by
    intro hr
    subst hr
    simp only [getFieldValueC, List.length_nil, gt_iff_lt, Nat.lt_irrefl, if_false]
    split_ifs with h1 h2
    · cases hval : e0.val with
      | vnull => exact Or.inl rfl
      | vs s => exact Or.inl rfl
      | varr l => exact Or.inr ⟨l, rfl, by rw [jqValOrEmpty]⟩
    · exact Or.inl rfl
    · exact Or.inl rfl
  have hsingleR9 : rest = [] →
      isStringValue (getFieldValueR9 e0 rest) = true
        ∨ ∃ l, e0.val = JQVal.varr l
            ∧ getFieldValueR9 e0 rest = JSValue.varr (l.map JSValue.vstr) := by
    intro hr
    subst hr
    simp only [getFieldValueR9, List.length_nil, gt_iff_lt, Nat.lt_irrefl, if_false]
    split_ifs with h1 h2 h3 h4 h5
    · cases hval : e0.val with
      | vnull => exact absurd hval (hwf e0 (by simp) (by simpa using h1))
      | vs s => exact Or.inl rfl
      | varr l => exact Or.inr ⟨l, rfl, by rw [jqValRaw]⟩
    · exact Or.inl rfl
    · cases hval : e0.val with
      | vnull => exact Or.inl rfl
      | vs s => exact Or.inl rfl
      | varr l => exact Or.inr ⟨l, rfl, by rw [jqValOrEmpty]⟩
    · cases hval : e0.val with
      | vnull => exact Or.inl rfl
      | vs s => exact Or.inl rfl
      | varr l => exact Or.inr ⟨l, rfl, by rw [jqValOrEmpty]⟩
    · exact Or.inl rfl
    · exact Or.inl rfl
  have hmultiC : rest ≠ [] → ∃ vs, getFieldValueC e0 rest = JSValue.varr vs
      ∧ vs.length = rest.length + 1 ∧ ∀ v ∈ vs, isNullValue v = false := by
    intro hr
    have hlen : rest.length > 0 := List.length_pos.mpr hr
    refine ⟨(e0 :: rest).map mapElemValueC, ?_, by simp, ?_⟩
    · simp [getFieldValueC, hlen]
    · intro v hv
      obtain ⟨x, _, hx⟩ := List.mem_map.mp hv
      rw [← hx]
      exact mapElemValueC_not_null x
  have hmultiR9 : rest ≠ [] → ∃ vs, getFieldValueR9 e0 rest = JSValue.varr vs
      ∧ vs.length = rest.length + 1 ∧ ∀ v ∈ vs, isNullValue v = false := by
    intro hr
    have hlen : rest.length > 0 := List.length_pos.mpr hr
    refine ⟨(e0 :: rest).map mapElemValueR9, ?_, by simp, ?_⟩
    · simp [getFieldValueR9, hlen]
    · intro v hv
      obtain ⟨x, hxmem, hx⟩ := List.mem_map.mp hv
      rw [← hx]
      exact mapElemValueR9_not_null x (hwf x hxmem)
  refine ⟨?_, ?_, hmultiC, hmultiR9, hsingleC, hsingleR9⟩
  · cases hr : rest with
    | nil =>
      rcases hsingleC hr with hstr | ⟨l, _, harr⟩
      · subst hr
        revert hstr
        cases getFieldValueC e0 [] <;> intro hstr <;> first | rfl | cases hstr
      · subst hr
        rw [harr]
        rfl
    | cons a tl =>
      obtain ⟨vs, harr, _, _⟩ := hmultiC (by simp [hr])
      rw [← hr]
      rw [harr]
      rfl
  · cases hr : rest with
    | nil =>
      rcases hsingleR9 hr with hstr | ⟨l, _, harr⟩
      · subst hr
        revert hstr
        cases getFieldValueR9 e0 [] <;> intro hstr <;> first | rfl | cases hstr
      · subst hr
        rw [harr]
        rfl
    | cons a tl =>
      obtain ⟨vs, harr, _, _⟩ := hmultiR9 (by simp [hr])
      rw [← hr]
      rw [harr]
      rfl

/-- Witness for C10: a single text input. -/
theorem c10_getFieldValue_total_shape_witness :
    (isNullValue (getFieldValueC textInputElem []) = false)
    ∧ (isNullValue (getFieldValueR9 textInputElem []) = false)
    ∧ (([] : List FElem) ≠ [] → ∃ vs, getFieldValueC textInputElem [] = JSValue.varr vs
        ∧ vs.length = ([] : List FElem).length + 1 ∧ ∀ v ∈ vs, isNullValue v = false)
    ∧ (([] : List FElem) ≠ [] → ∃ vs, getFieldValueR9 textInputElem [] = JSValue.varr vs
        ∧ vs.length = ([] : List FElem).length + 1 ∧ ∀ v ∈ vs, isNullValue v = false)
    ∧ (([] : List FElem) = [] → isStringValue (getFieldValueC textInputElem []) = true
        ∨ ∃ l, textInputElem.val = JQVal.varr l
            ∧ getFieldValueC textInputElem [] = JSValue.varr (l.map JSValue.vstr))
    ∧ (([] : List FElem) = [] → isStringValue (getFieldValueR9 textInputElem []) = true
        ∨ ∃ l, textInputElem.val = JQVal.varr l
            ∧ getFieldValueR9 textInputElem [] = JSValue.varr (l.map JSValue.vstr)) :=
  c10_getFieldValue_total_shape textInputElem [] (by decide)

/-- C10 counterexample.  The claim says a single-element unit always yields
a string; a single multiple-select with one selected value yields the array
of its selected values instead. -/
theorem c10_single_multiselect_yields_array :
    getFieldValueC multiSelectElem [] = JSValue.varr [JSValue.vstr "a"]
      ∧ isStringValue (getFieldValueC multiSelectElem []) = false :=
  ⟨rfl, rfl⟩

end Modia
